import Mathlib

/-!
Verification of the donation-tracking application (src/app.py) against its
natural-language specification.  The Python/Flask/SQLite code is shallowly
embedded: database rows become structures over `Option String` (a SQL NULL is
`none`), request forms become structures of optional fields (a missing form
field is `none`), and each route handler becomes a pure function from the
session, the parsed request and the current store to a response and the new
store.  SQLite-specific behaviour that the handlers rely on (default `LIKE`
semantics, NOT NULL / UNIQUE constraint failures, `ORDER BY` with NULLs) is
embedded explicitly.
-/

namespace Agape

/-- Characters stripped by Python str.strip() for ASCII input. -/
def pyWhitespace (c : Char) : Bool :=
  c = ' ' || c = '\t' || c = '\n' || c = '\r' || c = '\x0b' || c = '\x0c'

/-- Model of Python str.strip(): drop leading and trailing whitespace. -/
def pyStrip (s : String) : String :=
  String.mk (((s.data.dropWhile pyWhitespace).reverse.dropWhile pyWhitespace).reverse)

/-- ASCII lower-casing of a single character (as done by SQLite LIKE folding
and, on ASCII input, Python str.lower()). -/
def lowerChar (c : Char) : Char :=
  if 'A' ≤ c ∧ c ≤ 'Z' then Char.ofNat (c.toNat + 32) else c

/-- ASCII lower-casing of a string. -/
def asciiLower (s : String) : String := String.mk (s.data.map lowerChar)

/-- Test a matcher on every suffix of a character list (used to interpret the
percent wildcard, which matches any prefix of the remaining input). -/
def suffixAny (f : List Char → Bool) : List Char → Bool
  | [] => f []
  | c :: ss => f (c :: ss) || suffixAny f ss

/-- Model of the default SQLite LIKE operator: the percent wildcard matches any
sequence, the underscore wildcard matches any single character, and plain
characters compare after ASCII case folding (default SQLite LIKE is
case-insensitive on ASCII letters). -/
def likeMatch : List Char → List Char → Bool
  | [], s => s.isEmpty
  | '%' :: ps, s => suffixAny (likeMatch ps) s
  | '_' :: ps, s =>
    match s with
    | [] => false
    | _ :: ss => likeMatch ps ss
  | p :: ps, s =>
    match s with
    | [] => false
    | c :: ss => (lowerChar p == lowerChar c) && likeMatch ps ss

/-- Case-sensitive list-prefix test, used to express plain (case-sensitive)
substring containment when stating the specification verbatim. -/
def isPrefOf : List Char → List Char → Bool
  | [], _ => true
  | _ :: _, [] => false
  | a :: as, b :: bs => a == b && isPrefOf as bs

/-- Case-sensitive substring containment (the reading of "contains query as a
case-sensitive substring" in the specification). -/
def substrB (n : List Char) : List Char → Bool
  | [] => n.isEmpty
  | c :: hs => isPrefOf n (c :: hs) || substrB n hs

/-- Numeric value of a list of decimal digit characters. -/
def digitsToNat (ds : List Char) : Nat :=
  ds.foldl (fun a c => a * 10 + (c.toNat - 48)) 0

/-- Recognise a well-formed integer literal (optional sign, then digits), as
used by SQLite when applying INTEGER column affinity to bound text. -/
def parseIntStr (s : String) : Option Int :=
  match s.data with
  | '-' :: r => if r ≠ [] ∧ r.all Char.isDigit then some (-(digitsToNat r : Int)) else none
  | '+' :: r => if r ≠ [] ∧ r.all Char.isDigit then some ((digitsToNat r : Int)) else none
  | r => if r ≠ [] ∧ r.all Char.isDigit then some ((digitsToNat r : Int)) else none

/-- Value stored in a SQLite column of the donations table: NULL, an integer,
or text (SQLite is dynamically typed; the quantity column receives either the
Python integer 0 or form text subject to INTEGER affinity). -/
inductive SqlVal where
  | null
  | intV (i : Int)
  | textV (s : String)
deriving DecidableEq

/-- Value stored in the quantity column for a submitted quantity form field:
the handlers compute the Python expression form.get("quantity") or 0, so a
missing or empty field becomes the integer 0, and other text is stored under
the INTEGER affinity of the column. -/
def quantFromForm (q : Option String) : SqlVal :=
  match q with
  | none => .intV 0
  | some s =>
    if s = "" then .intV 0
    else
      match parseIntStr s with
      | some i => .intV i
      | none => .textV s

/-- The base64url alphabet used by secrets.token_urlsafe. -/
def b64alphabet : List Char :=
  "ABCDEFGHIJKLMNOPQRSTUVWXYZabcdefghijklmnopqrstuvwxyz0123456789-_".data

/-- Character of the base64url alphabet at a given 6-bit index. -/
def b64c (n : Nat) : Char := b64alphabet.getD n 'A'

/-- Unpadded base64url encoding of a byte list (each byte is reduced mod 256;
secrets.token_urlsafe strips the trailing padding, and on inputs whose length
is a multiple of three no padding arises at all). -/
def b64encode : List Nat → List Char
  | [] => []
  | [b1] => [b64c (b1 % 256 / 4), b64c (b1 % 4 * 16)]
  | [b1, b2] => [b64c (b1 % 256 / 4), b64c (b1 % 4 * 16 + b2 % 256 / 16), b64c (b2 % 16 * 4)]
  | b1 :: b2 :: b3 :: rest =>
    b64c (b1 % 256 / 4) :: b64c (b1 % 4 * 16 + b2 % 256 / 16) ::
      b64c (b2 % 16 * 4 + b3 % 256 / 64) :: b64c (b3 % 64) :: b64encode rest

/-- Model of secrets.token_urlsafe: base64url-encode the first nbytes bytes of
the operating-system randomness stream, passed here explicitly as seed. -/
def token_urlsafe (nbytes : Nat) (seed : List Nat) : String :=
  String.mk (b64encode (seed.take nbytes))

/-- Model of generate_token in src/app.py: secrets.token_urlsafe(12). -/
def generate_token (seed : List Nat) : String := token_urlsafe 12 seed

/-- Index of the last occurrence of a character in a list, if any. -/
def lastIdx (c : Char) (cs : List Char) : Option Nat :=
  (cs.enum.filterMap (fun p => if p.2 = c then some p.1 else none)).getLast?

/-- Extension part of Python os.path.splitext: the suffix from the last dot,
provided that dot lies after the last slash and the basename does not consist
solely of leading dots up to it. -/
def splitextExt (p : String) : String :=
  let cs := p.data
  match lastIdx '.' cs, lastIdx '/' cs with
  | none, _ => ""
  | some dot, some sep =>
    if sep < dot then
      if ((cs.take dot).drop (sep + 1)).any (fun ch => ch != '.') then String.mk (cs.drop dot)
      else ""
    else ""
  | some dot, none =>
    if (cs.take dot).any (fun ch => ch != '.') then String.mk (cs.drop dot) else ""

/-- Stored photo reference written by update_donation for an uploaded file:
uploads/donation_(id)(lower-cased extension). -/
def photoRef (donation_id : Nat) (filename : String) : String :=
  "uploads/donation_" ++ toString donation_id ++ asciiLower (splitextExt filename)

/-- Row of the donations table (schema in init_db of src/app.py).  Columns
other than the integer primary key are nullable; NULL is `none`. -/
structure Donation where
  id : Nat
  donor_name : Option String
  donor_phone : Option String
  donor_email : Option String
  donation_type : Option String
  quantity : SqlVal
  destination : Option String
  created_at : Option String
  status : Option String
  token : Option String
  photo_path : Option String
deriving DecidableEq

/-- Row of the users table. -/
structure User where
  id : Nat
  username : Option String
  password : Option String
  role : Option String
deriving DecidableEq

/-- Flask session as used by the handlers: the keys set by login. -/
structure Session where
  logged_in : Bool
  user_id : Option Nat
  username : Option String
  role : Option String
deriving DecidableEq

/-- Session of a request that never logged in: no session keys set. -/
def emptySession : Session :=
  { logged_in := false, user_id := none, username := none, role := none }

/-- HTTP-level outcome of a handler: a redirect, a 403 with message, a 400
with message, a 404, or an unhandled database error (HTTP 500). -/
inductive Resp where
  | redirect (loc : String)
  | forbidden (msg : String)
  | badRequest (msg : String)
  | notFound
  | serverError
deriving DecidableEq

/-- Constraint violations the SQLite schema can raise on the statements the
handlers execute. -/
inductive DbError where
  | notNullViolation
  | uniqueViolation
deriving DecidableEq

/-- Parsed form of the new-donation POST request; a field absent from the
request is `none`. -/
structure CreateForm where
  donor_name : Option String
  donor_phone : Option String
  donor_email : Option String
  donation_type : Option String
  quantity : Option String
  destination : Option String
deriving DecidableEq

/-- Parsed form of the update POST request; photo is the filename of the
uploaded file part, `none` when no file part was sent (a file part with an
empty filename is how browsers submit an empty file input). -/
structure UpdateForm where
  status : Option String
  donor_name : Option String
  donor_phone : Option String
  donor_email : Option String
  donation_type : Option String
  quantity : Option String
  destination : Option String
  photo : Option String
deriving DecidableEq

/-- Outcome of the login POST handler: redirect on success, re-rendered login
page with an error message otherwise. -/
inductive LoginResult where
  | success
  | failure
deriving DecidableEq

/-- Session established for a matched user row: the four keys set by the login
handler. -/
def sessionFor (u : User) : Session :=
  { logged_in := true, user_id := some u.id, username := u.username, role := u.role }

/-- Model of the login POST handler in src/app.py: strip the submitted
credentials, look for a user row matching both by SQL equality, and on a match
set the four session keys; otherwise leave the session as it was. -/
def login (users : List User) (sess : Session)
    (form_username form_password : Option String) : LoginResult × Session :=
  let username := pyStrip (form_username.getD "")
  let password := pyStrip (form_password.getD "")
  match users.find? (fun u => u.username == some username && u.password == some password) with
  | some u => (.success, sessionFor u)
  | none => (.failure, sess)

/-- Fresh AUTOINCREMENT id for an insert into the donations table. -/
def nextId (dons : List Donation) : Nat :=
  dons.foldl (fun m d => max m d.id) 0 + 1

/-- Name of the QR image artifact generated for a token. -/
def qrFileName (tok : String) : String := "qr_" ++ tok ++ ".png"

/-- Row inserted by the new_donation POST handler: fresh id, the submitted
fields, quantity defaulted per the form expression, current timestamp, status
Registrada, the generated token, and no photo. -/
def createdRow (form : CreateForm) (now tok : String) (dons : List Donation) : Donation :=
  { id := nextId dons
    donor_name := form.donor_name
    donor_phone := form.donor_phone
    donor_email := form.donor_email
    donation_type := form.donation_type
    quantity := quantFromForm form.quantity
    destination := form.destination
    created_at := some now
    status := some "Registrada"
    token := some tok
    photo_path := none }

/-- Model of the new_donation POST handler in src/app.py.  now is the current
timestamp string and tok the value returned by generate_token; qrs is the set
of QR artifacts on disk.  The insert fails if donor_name is NULL (NOT NULL
constraint) or the token already exists (UNIQUE constraint); the handler has
no error handling, so such a failure aborts the request before any QR
generation. -/
def new_donation (form : CreateForm) (now tok : String) (dons : List Donation)
    (qrs : List String) : Except DbError (List Donation × List String) :=
  if form.donor_name = none then .error .notNullViolation
  else if dons.any (fun d => d.token == some tok) then .error .uniqueViolation
  else .ok (dons ++ [createdRow form now tok dons], qrs ++ [qrFileName tok])

/-- The six columns searched by the admin list query, in the order they appear
in the SQL statement. -/
def searchFields (d : Donation) : List (Option String) :=
  [d.donor_name, d.donor_phone, d.donor_email, d.donation_type, d.destination, d.token]

/-- SQL expression column LIKE pattern: NULL yields no match. -/
def fieldLike (pat : String) (f : Option String) : Bool :=
  match f with
  | none => false
  | some s => likeMatch pat.data s.data

/-- Row predicate of the admin list search: some searched column LIKE-matches
the pattern percent-query-percent. -/
def rowMatches (q : String) (d : Donation) : Bool :=
  (searchFields d).any (fieldLike ("%" ++ q ++ "%"))

/-- Comparison used by ORDER BY created_at DESC: SQL NULL is below every text
value, so in descending order NULLs come last. -/
def dateLe : Option String → Option String → Prop
  | none, _ => True
  | some _, none => False
  | some a, some b => a ≤ b

instance : ∀ x y : Option String, Decidable (dateLe x y)
  | none, _ => isTrue trivial
  | some _, none => isFalse fun h => h
  | some a, some b => inferInstanceAs (Decidable (a ≤ b))

theorem dateLe_total : ∀ x y : Option String, dateLe x y ∨ dateLe y x
  | none, _ => Or.inl trivial
  | some _, none => Or.inr trivial
  | some a, some b => (le_total a b).imp id id

theorem dateLe_trans : ∀ x y z : Option String, dateLe x y → dateLe y z → dateLe x z
  | none, _, _, _, _ => trivial
  | some _, none, _, h, _ => h.elim
  | some _, some _, none, _, h => h.elim
  | some _, some _, some _, h1, h2 => le_trans h1 h2

/-- Descending created_at ordering on donation rows. -/
def createdDesc (a b : Donation) : Prop := dateLe b.created_at a.created_at

instance : DecidableRel createdDesc := fun a b => by
  unfold createdDesc; infer_instance

instance : IsTotal Donation createdDesc :=
  ⟨fun a b => dateLe_total b.created_at a.created_at⟩

instance : IsTrans Donation createdDesc :=
  ⟨fun _ _ _ h1 h2 => dateLe_trans _ _ _ h2 h1⟩

/-- Model of the admin_list handler in src/app.py: strip both request
arguments, restrict by the LIKE search when the query is non-empty, restrict
by exact status equality when the status filter is non-empty, and order by
created_at descending. -/
def admin_list (q_raw status_raw : String) (dons : List Donation) : List Donation :=
  let q := pyStrip q_raw
  let status_filter := pyStrip status_raw
  let l1 := if q = "" then dons else dons.filter (rowMatches q)
  let l2 := if status_filter = "" then l1 else l1.filter (fun d => d.status == some status_filter)
  List.insertionSort createdDesc l2

/-- Outcome of the public tracking page: 404, or the page rendered from the
full donation row and the derived tracking link. -/
inductive TrackResp where
  | notFound
  | page (donation : Donation) (track_url : String)
deriving DecidableEq

/-- Public tracking URL derived from a token. -/
def trackUrl (tok : String) : String := "/track/" ++ tok

/-- Model of the track_donation handler in src/app.py: select the donation by
token (a SELECT only, so the store is returned unchanged) and render it, or
404 when no row matches. -/
def track_donation (tok : String) (dons : List Donation) : TrackResp × List Donation :=
  match dons.find? (fun d => d.token == some tok) with
  | none => (.notFound, dons)
  | some d => (.page d (trackUrl tok), dons)

/-- Row written by the UPDATE statement of update_donation: the six
descriptive fields take the submitted values only when the current status is
Registrada, the submitted status is always written (NULL when the form omits
it), and the photo reference is replaced only when a file part with a
non-empty filename was uploaded. -/
def updatedRow (donation : Donation) (donation_id : Nat) (form : UpdateForm) : Donation :=
  let edit_allowed := donation.status == some "Registrada"
  { donation with
      donor_name := if edit_allowed then form.donor_name else donation.donor_name
      donor_phone := if edit_allowed then form.donor_phone else donation.donor_phone
      donor_email := if edit_allowed then form.donor_email else donation.donor_email
      donation_type := if edit_allowed then form.donation_type else donation.donation_type
      quantity := if edit_allowed then quantFromForm form.quantity else donation.quantity
      destination := if edit_allowed then form.destination else donation.destination
      status := form.status
      photo_path :=
        match form.photo with
        | some fn => if fn = "" then donation.photo_path else some (photoRef donation_id fn)
        | none => donation.photo_path }

/-- Model of the update_donation POST handler in src/app.py, including its
login_required wrapper.  The handler fetches the row, computes the row to
write (see updatedRow), and issues a single UPDATE; writing NULL into
donor_name violates the NOT NULL constraint, aborting the request with the
store unchanged. -/
def update_donation (sess : Session) (donation_id : Nat) (form : UpdateForm)
    (dons : List Donation) : Resp × List Donation :=
  if sess.logged_in = false then (.redirect "/login", dons)
  else
    match dons.find? (fun d => d.id == donation_id) with
    | none => (.notFound, dons)
    | some donation =>
      let newRow := updatedRow donation donation_id form
      if newRow.donor_name = none then (.serverError, dons)
      else
        (.redirect ("/donation/" ++ (donation.token.getD "") ++ "/qr"),
          dons.map (fun x => if x.id == donation_id then newRow else x))

/-- Model of the delete_donation POST handler in src/app.py together with its
decorators, applied outermost first: login_required redirects a request with
no logged-in session, role_required rejects a non-admin session with a 403,
and the handler itself rejects a donation whose status is not Registrada with
a 400, deleting the row otherwise. -/
def delete_donation (sess : Session) (donation_id : Nat)
    (dons : List Donation) : Resp × List Donation :=
  if sess.logged_in = false then (.redirect "/login", dons)
  else if sess.role ≠ some "admin" then (.forbidden "No tenes permisos para esta accion", dons)
  else
    match dons.find? (fun d => d.id == donation_id) with
    | none => (.notFound, dons)
    | some donation =>
      if donation.status ≠ some "Registrada" then
        (.badRequest "Solo se pueden eliminar donaciones en estado Registrada.", dons)
      else
        (.redirect "/", dons.filter (fun d => ¬(d.id == donation_id)))

/-- Whether a response is a 403. -/
def isForbidden : Resp → Bool
  | .forbidden _ => true
  | _ => false

/-- Whether a response is a 400. -/
def isBadRequest : Resp → Bool
  | .badRequest _ => true
  | _ => false

/-- Sample donation still in the initial state. -/
def sampleReg : Donation :=
  { id := 1, donor_name := some "Ana", donor_phone := none, donor_email := none,
    donation_type := none, quantity := .intV 0, destination := none,
    created_at := some "2024-01-01 10:00:00", status := some "Registrada",
    token := some "tokA", photo_path := none }

/-- Sample donation that has left the initial state. -/
def sampleDone : Donation :=
  { sampleReg with id := 2, status := some "Entregada", token := some "tokB" }

/-- Sample donation with an upper-case donor name, all other searched columns
NULL. -/
def c5SampleA : Donation :=
  { id := 3, donor_name := some "ABC", donor_phone := none, donor_email := none,
    donation_type := none, quantity := .intV 0, destination := none,
    created_at := some "2024-01-01 00:00:00", status := some "Registrada",
    token := none, photo_path := none }

/-- The default administrative account provisioned by init_db. -/
def adminUser : User :=
  { id := 1, username := some "admin", password := some "agape2025", role := some "admin" }

/-- Session of a logged-in administrator. -/
def adminSession : Session :=
  { logged_in := true, user_id := some 1, username := some "admin", role := some "admin" }

/-- Create form submitting only the donor name. -/
def fAna : CreateForm :=
  { donor_name := some "Ana", donor_phone := none, donor_email := none,
    donation_type := none, quantity := none, destination := none }

/-- Update form attempting to change descriptive fields. -/
def formEdit : UpdateForm :=
  { status := some "Entregada", donor_name := some "Eva", donor_phone := some "123",
    donor_email := some "e@x", donation_type := some "ropa", quantity := some "5",
    destination := some "norte", photo := none }

/-- Update form carrying a new photo upload. -/
def formPhoto : UpdateForm :=
  { status := some "Entregada", donor_name := none, donor_phone := none,
    donor_email := none, donation_type := none, quantity := none,
    destination := none, photo := some "img.JPG" }

/-- Update form that omits the status field entirely. -/
def formNoStatus : UpdateForm :=
  { status := none, donor_name := none, donor_phone := none, donor_email := none,
    donation_type := none, quantity := none, destination := none, photo := none }

/-- Rows of a store with nodup ids are determined by their id. -/
theorem eq_of_id_eq {dons : List Donation} (h : (dons.map Donation.id).Nodup)
    {a b : Donation} (ha : a ∈ dons) (hb : b ∈ dons) (hid : a.id = b.id) : a = b :=
  List.inj_on_of_nodup_map h ha hb hid

theorem updatedRow_id (d : Donation) (did : Nat) (form : UpdateForm) :
    (updatedRow d did form).id = d.id := rfl

theorem updatedRow_token (d : Donation) (did : Nat) (form : UpdateForm) :
    (updatedRow d did form).token = d.token := rfl

theorem updatedRow_created_at (d : Donation) (did : Nat) (form : UpdateForm) :
    (updatedRow d did form).created_at = d.created_at := rfl

theorem updatedRow_status (d : Donation) (did : Nat) (form : UpdateForm) :
    (updatedRow d did form).status = form.status := rfl

theorem updatedRow_photo (d : Donation) (did : Nat) (form : UpdateForm) :
    (updatedRow d did form).photo_path =
      match form.photo with
      | some fn => if fn = "" then d.photo_path else some (photoRef did fn)
      | none => d.photo_path := rfl

/-- When the current status is not Registrada, the written row keeps the six
descriptive fields. -/
theorem updatedRow_of_not_reg {d : Donation} (did : Nat) (form : UpdateForm)
    (h : d.status ≠ some "Registrada") :
    (updatedRow d did form).donor_name = d.donor_name ∧
    (updatedRow d did form).donor_phone = d.donor_phone ∧
    (updatedRow d did form).donor_email = d.donor_email ∧
    (updatedRow d did form).donation_type = d.donation_type ∧
    (updatedRow d did form).quantity = d.quantity ∧
    (updatedRow d did form).destination = d.destination := by
  have hb : (d.status == some "Registrada") = false := beq_eq_false_iff_ne.mpr h
  simp [updatedRow, hb]

/-- When the current status is Registrada, the written row takes the submitted
descriptive fields. -/
theorem updatedRow_of_reg {d : Donation} (did : Nat) (form : UpdateForm)
    (h : d.status = some "Registrada") :
    (updatedRow d did form).donor_name = form.donor_name ∧
    (updatedRow d did form).donor_phone = form.donor_phone ∧
    (updatedRow d did form).donor_email = form.donor_email ∧
    (updatedRow d did form).donation_type = form.donation_type ∧
    (updatedRow d did form).quantity = quantFromForm form.quantity ∧
    (updatedRow d did form).destination = form.destination := by
  simp [updatedRow, h]

/-- Exhaustive case analysis of the update handler: login redirect, 404,
constraint failure, or the successful UPDATE. -/
theorem update_donation_cases (sess : Session) (did : Nat) (form : UpdateForm)
    (dons : List Donation) :
    (sess.logged_in = false ∧ update_donation sess did form dons = (.redirect "/login", dons)) ∨
    (sess.logged_in = true ∧ dons.find? (fun x => x.id == did) = none ∧
      update_donation sess did form dons = (.notFound, dons)) ∨
    (∃ d, sess.logged_in = true ∧ dons.find? (fun x => x.id == did) = some d ∧
      (updatedRow d did form).donor_name = none ∧
      update_donation sess did form dons = (.serverError, dons)) ∨
    (∃ d, sess.logged_in = true ∧ dons.find? (fun x => x.id == did) = some d ∧
      (updatedRow d did form).donor_name ≠ none ∧
      update_donation sess did form dons =
        (.redirect ("/donation/" ++ (d.token.getD "") ++ "/qr"),
          dons.map (fun x => if x.id == did then updatedRow d did form else x))) := by
  by_cases hlog : sess.logged_in = false
  · exact Or.inl ⟨hlog, by simp [update_donation, hlog]⟩
  · have hlogt : sess.logged_in = true := by
      cases h : sess.logged_in
      · exact absurd h hlog
      · rfl
    cases hf : dons.find? (fun x => x.id == did) with
    | none =>
      exact Or.inr (Or.inl ⟨hlogt, rfl, by simp [update_donation, hlogt, hf]⟩)
    | some d =>
      by_cases hnm : (updatedRow d did form).donor_name = none
      · exact Or.inr (Or.inr (Or.inl ⟨d, hlogt, rfl,
          hnm, by simp [update_donation, hlogt, hf, hnm]⟩))
      · exact Or.inr (Or.inr (Or.inr ⟨d, hlogt, rfl,
          hnm, by simp [update_donation, hlogt, hf, hnm]⟩))

/-- C1: the update operation applies the submitted descriptive fields (donor
name, phone, email, donation type, quantity, destination) only when the
donation's current status equals Registrada; when the current status is not
Registrada, the stored values of those six fields after the update equal their
values before the update, regardless of what was submitted. -/
theorem c1_edit_fields_only_in_registrada
    (sess : Session) (did : Nat) (form : UpdateForm) (dons : List Donation) (d : Donation)
    (hfind : dons.find? (fun x => x.id == did) = some d)
    (hids : (dons.map Donation.id).Nodup) :
    (d.status ≠ some "Registrada" →
      ∀ d2 ∈ (update_donation sess did form dons).2, d2.id = did →
        d2.donor_name = d.donor_name ∧ d2.donor_phone = d.donor_phone ∧
        d2.donor_email = d.donor_email ∧ d2.donation_type = d.donation_type ∧
        d2.quantity = d.quantity ∧ d2.destination = d.destination) ∧
    (d.status = some "Registrada" → sess.logged_in = true →
      (update_donation sess did form dons).1 ≠ .serverError →
      ∀ d2 ∈ (update_donation sess did form dons).2, d2.id = did →
        d2.donor_name = form.donor_name ∧ d2.donor_phone = form.donor_phone ∧
        d2.donor_email = form.donor_email ∧ d2.donation_type = form.donation_type ∧
        d2.quantity = quantFromForm form.quantity ∧ d2.destination = form.destination) := by
  have hdmem : d ∈ dons := List.mem_of_find?_eq_some hfind
  have hdid : d.id = did := by simpa using List.find?_some hfind
  rcases update_donation_cases sess did form dons with
    ⟨hlog, hEq⟩ | ⟨_, hf, _⟩ | ⟨d0, _, hf, _, hEq⟩ | ⟨d0, _, hf, _, hEq⟩
  · constructor
    · intro _ d2 hd2 hid2
      have h2 : (update_donation sess did form dons).2 = dons := by rw [hEq]
      rw [h2] at hd2
      have : d2 = d := eq_of_id_eq hids hd2 hdmem (hid2.trans hdid.symm)
      subst this
      exact ⟨rfl, rfl, rfl, rfl, rfl, rfl⟩
    · intro _ hlogt _
      rw [hlog] at hlogt
      exact absurd hlogt (by decide)
  · exact Option.noConfusion (hfind.symm.trans hf)
  · have hd0 : d = d0 := Option.some.inj (hfind.symm.trans hf)
    subst hd0
    constructor
    · intro _ d2 hd2 hid2
      have h2 : (update_donation sess did form dons).2 = dons := by rw [hEq]
      rw [h2] at hd2
      have : d2 = d := eq_of_id_eq hids hd2 hdmem (hid2.trans hdid.symm)
      subst this
      exact ⟨rfl, rfl, rfl, rfl, rfl, rfl⟩
    · intro _ _ hns
      exact absurd (by rw [hEq]) hns
  · have hd0 : d = d0 := Option.some.inj (hfind.symm.trans hf)
    subst hd0
    have h2 : (update_donation sess did form dons).2 =
        dons.map (fun x => if x.id == did then updatedRow d did form else x) := by rw [hEq]
    constructor
    · intro hst d2 hd2 hid2
      rw [h2, List.mem_map] at hd2
      obtain ⟨x, hx, rfl⟩ := hd2
      by_cases hxid : (x.id == did) = true
      · rw [if_pos hxid]
        exact updatedRow_of_not_reg did form hst
      · rw [if_neg hxid] at hid2
        have : x.id ≠ did := by simpa using hxid
        exact absurd hid2 this
    · intro hreg _ _ d2 hd2 hid2
      rw [h2, List.mem_map] at hd2
      obtain ⟨x, hx, rfl⟩ := hd2
      by_cases hxid : (x.id == did) = true
      · rw [if_pos hxid]
        exact updatedRow_of_reg did form hreg
      · rw [if_neg hxid] at hid2
        have : x.id ≠ did := by simpa using hxid
        exact absurd hid2 this

/-- Witness for C1 at a concrete input: updating a delivered donation with a
form full of new descriptive values leaves the six fields unchanged. -/
theorem c1_witness :
    (updatedRow sampleDone 2 formEdit).donor_name = sampleDone.donor_name ∧
    (updatedRow sampleDone 2 formEdit).donor_phone = sampleDone.donor_phone ∧
    (updatedRow sampleDone 2 formEdit).donor_email = sampleDone.donor_email ∧
    (updatedRow sampleDone 2 formEdit).donation_type = sampleDone.donation_type ∧
    (updatedRow sampleDone 2 formEdit).quantity = sampleDone.quantity ∧
    (updatedRow sampleDone 2 formEdit).destination = sampleDone.destination :=
  (c1_edit_fields_only_in_registrada adminSession 2 formEdit [sampleDone] sampleDone
    (by decide) (by decide)).1 (by decide) (updatedRow sampleDone 2 formEdit)
    (by decide) (by decide)

/-- C3: no update ever changes a stored row's token or creation timestamp:
every row of the store after an update has the token and created_at of a row
of the store before it with the same id. -/
theorem c3_token_created_at_immutable (sess : Session) (did : Nat) (form : UpdateForm)
    (dons : List Donation) :
    ∀ d2 ∈ (update_donation sess did form dons).2,
      ∃ d0 ∈ dons, d0.id = d2.id ∧ d2.token = d0.token ∧ d2.created_at = d0.created_at := by
  intro d2 hd2
  rcases update_donation_cases sess did form dons with
    ⟨_, hEq⟩ | ⟨_, _, hEq⟩ | ⟨d0, _, _, _, hEq⟩ | ⟨d0, _, hf, _, hEq⟩
  · have h2 : (update_donation sess did form dons).2 = dons := by rw [hEq]
    rw [h2] at hd2
    exact ⟨d2, hd2, rfl, rfl, rfl⟩
  · have h2 : (update_donation sess did form dons).2 = dons := by rw [hEq]
    rw [h2] at hd2
    exact ⟨d2, hd2, rfl, rfl, rfl⟩
  · have h2 : (update_donation sess did form dons).2 = dons := by rw [hEq]
    rw [h2] at hd2
    exact ⟨d2, hd2, rfl, rfl, rfl⟩
  · have h2 : (update_donation sess did form dons).2 =
        dons.map (fun x => if x.id == did then updatedRow d0 did form else x) := by rw [hEq]
    rw [h2, List.mem_map] at hd2
    obtain ⟨x, hx, rfl⟩ := hd2
    by_cases hxid : (x.id == did) = true
    · rw [if_pos hxid]
      exact ⟨d0, List.mem_of_find?_eq_some hf, (updatedRow_id d0 did form).symm,
        updatedRow_token d0 did form, updatedRow_created_at d0 did form⟩
    · rw [if_neg hxid]
      exact ⟨x, hx, rfl, rfl, rfl⟩

/-- Witness for C3 at a concrete input. -/
theorem c3_witness :
    ∃ d0 ∈ [sampleDone], d0.id = (updatedRow sampleDone 2 formEdit).id ∧
      (updatedRow sampleDone 2 formEdit).token = d0.token ∧
      (updatedRow sampleDone 2 formEdit).created_at = d0.created_at :=
  c3_token_created_at_immutable adminSession 2 formEdit [sampleDone]
    (updatedRow sampleDone 2 formEdit) (by decide)

/-- C7: on a completed update, the stored photo reference is the one derived
from the new upload when a photo file with a non-empty filename was supplied,
and is unchanged otherwise. -/
theorem c7_photo_replacement (sess : Session) (did : Nat) (form : UpdateForm)
    (dons : List Donation) (d : Donation)
    (hlog : sess.logged_in = true)
    (hfind : dons.find? (fun x => x.id == did) = some d)
    (hok : (update_donation sess did form dons).1 ≠ .serverError) :
    ∀ d2 ∈ (update_donation sess did form dons).2, d2.id = did →
      d2.photo_path =
        match form.photo with
        | some fn => if fn = "" then d.photo_path else some (photoRef did fn)
        | none => d.photo_path := by
  intro d2 hd2 hid2
  rcases update_donation_cases sess did form dons with
    ⟨hl, _⟩ | ⟨_, hf, _⟩ | ⟨d0, _, hf, _, hEq⟩ | ⟨d0, _, hf, _, hEq⟩
  · rw [hl] at hlog
    exact absurd hlog (by decide)
  · exact Option.noConfusion (hfind.symm.trans hf)
  · exact absurd (by rw [hEq]) hok
  · have hd0 : d = d0 := Option.some.inj (hfind.symm.trans hf)
    subst hd0
    have h2 : (update_donation sess did form dons).2 =
        dons.map (fun x => if x.id == did then updatedRow d did form else x) := by rw [hEq]
    rw [h2, List.mem_map] at hd2
    obtain ⟨x, hx, rfl⟩ := hd2
    by_cases hxid : (x.id == did) = true
    · rw [if_pos hxid]
      exact updatedRow_photo d did form
    · rw [if_neg hxid] at hid2
      have : x.id ≠ did := by simpa using hxid
      exact absurd hid2 this

/-- Witness for C7 at a concrete input: uploading img.JPG stores the derived
reference. -/
theorem c7_witness :
    (updatedRow sampleDone 2 formPhoto).photo_path = some (photoRef 2 "img.JPG") :=
  c7_photo_replacement adminSession 2 formPhoto [sampleDone] sampleDone rfl
    (by decide) (by decide) (updatedRow sampleDone 2 formPhoto) (by decide) (by decide)

/-- C10: on a completed update the submitted status value is written
unconditionally, so a form that omits the status field stores NULL rather
than retaining the previous status. -/
theorem c10_status_written_unconditionally (sess : Session) (did : Nat) (form : UpdateForm)
    (dons : List Donation) (d : Donation)
    (hlog : sess.logged_in = true)
    (hfind : dons.find? (fun x => x.id == did) = some d)
    (hok : (update_donation sess did form dons).1 ≠ .serverError) :
    ∀ d2 ∈ (update_donation sess did form dons).2, d2.id = did → d2.status = form.status := by
  intro d2 hd2 hid2
  rcases update_donation_cases sess did form dons with
    ⟨hl, _⟩ | ⟨_, hf, _⟩ | ⟨d0, _, hf, _, hEq⟩ | ⟨d0, _, hf, _, hEq⟩
  · rw [hl] at hlog
    exact absurd hlog (by decide)
  · exact Option.noConfusion (hfind.symm.trans hf)
  · exact absurd (by rw [hEq]) hok
  · have hd0 : d = d0 := Option.some.inj (hfind.symm.trans hf)
    subst hd0
    have h2 : (update_donation sess did form dons).2 =
        dons.map (fun x => if x.id == did then updatedRow d did form else x) := by rw [hEq]
    rw [h2, List.mem_map] at hd2
    obtain ⟨x, hx, rfl⟩ := hd2
    by_cases hxid : (x.id == did) = true
    · rw [if_pos hxid]
      exact updatedRow_status d did form
    · rw [if_neg hxid] at hid2
      have : x.id ≠ did := by simpa using hxid
      exact absurd hid2 this

/-- Witness for C10 at a concrete input: a form omitting status stores NULL. -/
theorem c10_witness : (updatedRow sampleDone 2 formNoStatus).status = none :=
  c10_status_written_unconditionally adminSession 2 formNoStatus [sampleDone] sampleDone rfl
    (by decide) (by decide) (updatedRow sampleDone 2 formNoStatus) (by decide) (by decide)

/-- C2 as stated by the specification: for an existing donation, the row is
removed iff its status is Registrada and the session role is admin, and in
every other case the response is a 403 or a 400 and the store is unchanged. -/
def c2Stated (sess : Session) (did : Nat) (dons : List Donation) : Prop :=
  (∃ d ∈ dons, d.id = did) →
    ((¬ ∃ d ∈ (delete_donation sess did dons).2, d.id = did) ↔
      ((∃ d ∈ dons, d.id = did ∧ d.status = some "Registrada") ∧
        sess.role = some "admin")) ∧
    (¬((∃ d ∈ dons, d.id = did ∧ d.status = some "Registrada") ∧
        sess.role = some "admin") →
      (isForbidden (delete_donation sess did dons).1 = true ∨
        isBadRequest (delete_donation sess did dons).1 = true) ∧
      (delete_donation sess did dons).2 = dons)

/-- Counterexample to C2 as stated: a request with no logged-in session (role
NULL, hence not admin) on an existing Registrada donation is answered with a
redirect to the login page, not with a 403 or a 400, though the row does
remain. -/
theorem c2_counterexample : ¬ c2Stated emptySession 1 [sampleReg] := by
  unfold c2Stated
  decide

/-- C2 amended: for an existing donation, the row is removed iff the session
is logged in with role admin and the status is Registrada; a session that is
not logged in is redirected to the login page with the store unchanged, a
logged-in non-admin session gets a 403 with the store unchanged, and a
logged-in admin session gets a 400 with the store unchanged when the status is
not Registrada. -/
theorem c2_delete_characterization (sess : Session) (did : Nat) (dons : List Donation)
    (d : Donation) (hfind : dons.find? (fun x => x.id == did) = some d) :
    (sess.logged_in = false →
      delete_donation sess did dons = (.redirect "/login", dons)) ∧
    (sess.logged_in = true → sess.role ≠ some "admin" →
      delete_donation sess did dons =
        (.forbidden "No tenes permisos para esta accion", dons)) ∧
    (sess.logged_in = true → sess.role = some "admin" → d.status ≠ some "Registrada" →
      delete_donation sess did dons =
        (.badRequest "Solo se pueden eliminar donaciones en estado Registrada.", dons)) ∧
    (sess.logged_in = true → sess.role = some "admin" → d.status = some "Registrada" →
      delete_donation sess did dons =
        (.redirect "/", dons.filter (fun x => ¬(x.id == did)))) := by
  refine ⟨?_, ?_, ?_, ?_⟩
  · intro hlog
    simp [delete_donation, hlog]
  · intro hlog hrole
    simp [delete_donation, hlog, hrole]
  · intro hlog hrole hst
    simp [delete_donation, hlog, hrole, hfind, hst]
  · intro hlog hrole hst
    simp [delete_donation, hlog, hrole, hfind, hst]

/-- Witness for C2 at a concrete input: an admin deleting a delivered
donation gets the policy-violation response and the row remains. -/
theorem c2_witness :
    delete_donation adminSession 2 [sampleDone] =
      (.badRequest "Solo se pueden eliminar donaciones en estado Registrada.", [sampleDone]) :=
  (c2_delete_characterization adminSession 2 [sampleDone] sampleDone
    (by decide)).2.2.1 rfl rfl (by decide)

/-- C4: a create request with the donor name supplied and a token not yet in
the store succeeds, appends a row with status Registrada, no photo, the
generated token, creation timestamp equal to the current time, and quantity
equal to the integer 0 when the quantity field is omitted or empty; the QR
artifact for the token is created. -/
theorem c4_create_defaults (form : CreateForm) (now tok : String) (dons : List Donation)
    (qrs : List String) (nm : String)
    (hname : form.donor_name = some nm)
    (hfresh : ∀ d ∈ dons, d.token ≠ some tok) :
    new_donation form now tok dons qrs =
      .ok (dons ++ [createdRow form now tok dons], qrs ++ [qrFileName tok]) ∧
    (createdRow form now tok dons).donor_name = some nm ∧
    (createdRow form now tok dons).status = some "Registrada" ∧
    (createdRow form now tok dons).photo_path = none ∧
    (createdRow form now tok dons).token = some tok ∧
    (createdRow form now tok dons).created_at = some now ∧
    ((form.quantity = none ∨ form.quantity = some "") →
      (createdRow form now tok dons).quantity = .intV 0) := by
  have h1 : ¬(form.donor_name = none) := by
    rw [hname]
    simp
  have h2 : dons.any (fun d => d.token == some tok) = false := by
    rw [List.any_eq_false]
    intro x hx
    simpa using hfresh x hx
  refine ⟨?_, ?_, rfl, rfl, rfl, rfl, ?_⟩
  · simp [new_donation, h1, h2]
  · simp [createdRow, hname]
  · intro hq
    rcases hq with hq | hq <;> simp [createdRow, quantFromForm, hq]

/-- Witness for C4 at a concrete input: creating with only donor name Ana on
an empty store. -/
theorem c4_witness :
    new_donation fAna "2024-01-02 09:00:00" "tokN" [] [] =
      .ok ([] ++ [createdRow fAna "2024-01-02 09:00:00" "tokN" []],
        [] ++ [qrFileName "tokN"]) ∧
    (createdRow fAna "2024-01-02 09:00:00" "tokN" []).donor_name = some "Ana" ∧
    (createdRow fAna "2024-01-02 09:00:00" "tokN" []).status = some "Registrada" ∧
    (createdRow fAna "2024-01-02 09:00:00" "tokN" []).photo_path = none ∧
    (createdRow fAna "2024-01-02 09:00:00" "tokN" []).token = some "tokN" ∧
    (createdRow fAna "2024-01-02 09:00:00" "tokN" []).created_at =
      some "2024-01-02 09:00:00" ∧
    ((fAna.quantity = none ∨ fAna.quantity = some "") →
      (createdRow fAna "2024-01-02 09:00:00" "tokN" []).quantity = .intV 0) :=
  c4_create_defaults fAna "2024-01-02 09:00:00" "tokN" [] [] "Ana" rfl (by decide)

/-- C6: tracking a token that no stored donation carries yields 404; tracking
the token of the unique donation carrying it renders that donation's full
stored row (in particular its stored status and photo reference) together with
the derived tracking link; in both cases the store is returned unchanged. -/
theorem c6_track_lookup (tok : String) (dons : List Donation) :
    ((∀ d ∈ dons, d.token ≠ some tok) → track_donation tok dons = (.notFound, dons)) ∧
    (∀ d ∈ dons, d.token = some tok → (∀ d2 ∈ dons, d2.token = some tok → d2 = d) →
      track_donation tok dons = (.page d (trackUrl tok), dons)) ∧
    (track_donation tok dons).2 = dons := by
  refine ⟨?_, ?_, ?_⟩
  · intro h
    have hf : dons.find? (fun d => d.token == some tok) = none := by
      rw [List.find?_eq_none]
      intro x hx
      simpa using h x hx
    simp [track_donation, hf]
  · intro d hd hdt huniq
    have hsome : (dons.find? (fun x => x.token == some tok)).isSome := by
      rw [List.find?_isSome]
      exact ⟨d, hd, by simpa using hdt⟩
    obtain ⟨d0, hf⟩ := Option.isSome_iff_exists.mp hsome
    have hd0tok : d0.token = some tok := by simpa using List.find?_some hf
    have hd0 : d0 = d := huniq d0 (List.mem_of_find?_eq_some hf) hd0tok
    subst hd0
    simp [track_donation, hf]
  · cases hf : dons.find? (fun d => d.token == some tok) <;> simp [track_donation, hf]

/-- Witness for C6 at a concrete input: tracking the token of the only stored
donation renders its row. -/
theorem c6_witness :
    track_donation "tokA" [sampleReg] = (.page sampleReg (trackUrl "tokA"), [sampleReg]) :=
  (c6_track_lookup "tokA" [sampleReg]).2.1 sampleReg (by decide) (by decide) (by decide)

/-- C5 as stated by the specification: the list returns exactly the donations
where, for a non-empty query, some searched field contains the query as a
case-sensitive substring, and, for a non-empty status filter, the status
matches exactly. -/
def c5Stated (q status_filter : String) (dons : List Donation) : Prop :=
  ∀ d, d ∈ admin_list q status_filter dons ↔
    d ∈ dons ∧
    (q ≠ "" →
      (searchFields d).any (fun f =>
        match f with
        | none => false
        | some s => substrB q.data s.data) = true) ∧
    (status_filter ≠ "" → d.status = some status_filter)

/-- Counterexample to C5 as stated: the query abc returns the donation whose
donor name is ABC, because SQLite LIKE is case-insensitive on ASCII letters,
although no searched field contains abc as a case-sensitive substring. -/
theorem c5_counterexample : ¬ c5Stated "abc" "" [c5SampleA] := by
  intro h
  have hmem : c5SampleA ∈ admin_list "abc" "" [c5SampleA] := by decide
  have h2 := ((h c5SampleA).mp hmem).2.1 (by decide)
  exact absurd h2 (by decide)

/-- C5 amended: both request arguments are first stripped of surrounding
whitespace; a row is returned iff it passes the LIKE filter (SQLite default
semantics: ASCII-case-insensitive, with percent and underscore in the query
acting as wildcards, NULL fields never matching) for a non-empty stripped
query and the exact status filter for a non-empty stripped status; the result
is ordered by created_at descending. -/
theorem c5_list_filter_characterization (q_raw status_raw : String) (dons : List Donation) :
    (∀ d, d ∈ admin_list q_raw status_raw dons ↔
      d ∈ dons ∧ (pyStrip q_raw ≠ "" → rowMatches (pyStrip q_raw) d = true) ∧
        (pyStrip status_raw ≠ "" → d.status = some (pyStrip status_raw))) ∧
    List.Sorted createdDesc (admin_list q_raw status_raw dons) := by
  constructor
  · intro d
    by_cases hq : pyStrip q_raw = "" <;> by_cases hs : pyStrip status_raw = "" <;>
      (simp [admin_list, hq, hs, List.mem_filter, and_assoc] <;> tauto)
  · simp only [admin_list]
    exact List.sorted_insertionSort createdDesc _

/-- Witness for C5 at a concrete input: the filtered list is sorted. -/
theorem c5_witness : List.Sorted createdDesc (admin_list "abc" "" [c5SampleA]) :=
  (c5_list_filter_characterization "abc" "" [c5SampleA]).2

/-- C8 as stated, entropy half: the token is supposed to carry at least 16
bytes of entropy, i.e. to distinguish any two distinct 16-byte randomness
seeds. -/
def c8StatedEntropy : Prop :=
  ∀ s1 s2 : List Nat, s1.length = 16 → s2.length = 16 →
    generate_token s1 = generate_token s2 → s1 = s2

/-- C8 as stated, regeneration half: creation is supposed never to fail due to
the token uniqueness constraint. -/
def c8StatedNoCollisionFailure : Prop :=
  ∀ (form : CreateForm) (now tok : String) (dons : List Donation) (qrs : List String),
    new_donation form now tok dons qrs ≠ .error .uniqueViolation

/-- Counterexample to C8 as stated: two 16-byte seeds that differ only past
byte 12 produce the same token (the code draws 12 bytes, not at least 16), and
creating with a colliding token makes the insert fail on the uniqueness
constraint instead of regenerating. -/
theorem c8_counterexample : ¬ c8StatedEntropy ∧ ¬ c8StatedNoCollisionFailure := by
  constructor
  · intro h
    have h1 := h (List.range 16) (List.range 12 ++ [200, 201, 202, 203])
      (by decide) (by decide) (by decide)
    exact absurd h1 (by decide)
  · intro h
    exact absurd rfl (h fAna "x" "tokA" [sampleReg] [])

theorem b64c_mem (n : Nat) : b64c n ∈ b64alphabet := by
  unfold b64c
  rcases Nat.lt_or_ge n b64alphabet.length with h | h
  · rw [List.getD_eq_getElem _ _ h]
    exact List.getElem_mem h
  · rw [List.getD_eq_default _ _ h]
    decide

theorem b64encode_mem : ∀ (bs : List Nat) (c : Char), c ∈ b64encode bs → c ∈ b64alphabet
  | [], _, h => by simp [b64encode] at h
  | [_], c, h => by
    simp [b64encode] at h
    rcases h with h | h <;> exact h ▸ b64c_mem _
  | [_, _], c, h => by
    simp [b64encode] at h
    rcases h with h | h | h <;> exact h ▸ b64c_mem _
  | _ :: _ :: _ :: rest, c, h => by
    simp [b64encode] at h
    rcases h with h | h | h | h | h
    · exact h ▸ b64c_mem _
    · exact h ▸ b64c_mem _
    · exact h ▸ b64c_mem _
    · exact h ▸ b64c_mem _
    · exact b64encode_mem rest c h

/-- C8 amended: generate_token is determined by the first 12 bytes of the
randomness stream (12 bytes of entropy, not at least 16), its output uses only
the URL-safe base64url alphabet, and a create whose generated token already
exists in the store fails with a constraint violation instead of regenerating
the token. -/
theorem c8_token_characterization :
    (∀ s1 s2 : List Nat, s1.take 12 = s2.take 12 → generate_token s1 = generate_token s2) ∧
    (∀ seed : List Nat, ∀ c ∈ (generate_token seed).data, c ∈ b64alphabet) ∧
    (∀ (form : CreateForm) (now tok : String) (dons : List Donation) (qrs : List String),
      (∃ d ∈ dons, d.token = some tok) →
      new_donation form now tok dons qrs = .error .notNullViolation ∨
      new_donation form now tok dons qrs = .error .uniqueViolation) := by
  refine ⟨?_, ?_, ?_⟩
  · intro s1 s2 h
    unfold generate_token token_urlsafe
    rw [h]
  · intro seed c hc
    have hd : (generate_token seed).data = b64encode (seed.take 12) := rfl
    rw [hd] at hc
    exact b64encode_mem _ _ hc
  · intro form now tok dons qrs hcol
    obtain ⟨d, hd, ht⟩ := hcol
    by_cases hn : form.donor_name = none
    · exact Or.inl (by simp [new_donation, hn])
    · have hany : dons.any (fun x => x.token == some tok) = true := by
        rw [List.any_eq_true]
        exact ⟨d, hd, by simpa using ht⟩
      exact Or.inr (by simp [new_donation, hn, hany])

/-- Witness for C8 at concrete inputs: seeds agreeing on their first 12 bytes
give equal tokens, and a colliding create fails. -/
theorem c8_witness :
    generate_token (List.range 12 ++ [7]) = generate_token (List.range 12 ++ [9]) ∧
    (new_donation fAna "x" "tokA" [sampleReg] [] = .error .notNullViolation ∨
      new_donation fAna "x" "tokA" [sampleReg] [] = .error .uniqueViolation) :=
  ⟨c8_token_characterization.1 _ _ (by decide),
    c8_token_characterization.2.2 fAna "x" "tokA" [sampleReg] [] ⟨sampleReg, by decide⟩⟩

/-- C9 as stated by the specification: authentication succeeds iff some stored
user's username and password are exactly (plain string equality) the submitted
values. -/
def c9Stated (users : List User) (sess : Session) (u p : String) : Prop :=
  ((login users sess (some u) (some p)).1 = .success) ↔
    ∃ usr ∈ users, usr.username = some u ∧ usr.password = some p

/-- Counterexample to C9 as stated: submitting the username admin followed by
a trailing space succeeds, because the handler strips the submitted
credentials before comparing, although no stored username equals the submitted
string. -/
theorem c9_counterexample : ¬ c9Stated [adminUser] emptySession "admin " "agape2025" := by
  unfold c9Stated
  decide

/-- C9 amended: authentication succeeds iff some stored user matches the
submitted credentials after stripping surrounding whitespace from them; on
success the session holds logged_in, user_id, username and role of a matching
user, and on failure the session is left unchanged. -/
theorem c9_login_characterization (users : List User) (sess : Session)
    (form_username form_password : Option String) :
    (((login users sess form_username form_password).1 = .success) ↔
      ∃ u ∈ users, u.username = some (pyStrip (form_username.getD "")) ∧
        u.password = some (pyStrip (form_password.getD ""))) ∧
    (((login users sess form_username form_password).1 = .success) →
      ∃ u ∈ users, u.username = some (pyStrip (form_username.getD "")) ∧
        u.password = some (pyStrip (form_password.getD "")) ∧
        (login users sess form_username form_password).2 = sessionFor u) ∧
    (((login users sess form_username form_password).1 = .failure) →
      (login users sess form_username form_password).2 = sess) := by
  cases hf : users.find? (fun u =>
      u.username == some (pyStrip (form_username.getD "")) &&
        u.password == some (pyStrip (form_password.getD ""))) with
  | none =>
    have hres : login users sess form_username form_password = (.failure, sess) := by
      simp [login, hf]
    refine ⟨?_, ?_, ?_⟩
    · constructor
      · intro h
        rw [hres] at h
        exact LoginResult.noConfusion h
      · rintro ⟨u, hu, h1, h2⟩
        have hx := List.find?_eq_none.mp hf u hu
        simp [h1, h2] at hx
    · intro h
      rw [hres] at h
      exact LoginResult.noConfusion h
    · intro _
      rw [hres]
  | some u =>
    have hpred := List.find?_some hf
    simp only [Bool.and_eq_true, beq_iff_eq] at hpred
    have hmem := List.mem_of_find?_eq_some hf
    have hres : login users sess form_username form_password = (.success, sessionFor u) := by
      simp [login, hf]
    refine ⟨?_, ?_, ?_⟩
    · constructor
      · intro _
        exact ⟨u, hmem, hpred.1, hpred.2⟩
      · intro _
        rw [hres]
    · intro _
      exact ⟨u, hmem, hpred.1, hpred.2, by rw [hres]⟩
    · intro h
      rw [hres] at h
      exact LoginResult.noConfusion h

/-- Witness for C9 at a concrete input: the default admin credentials log
in. -/
theorem c9_witness :
    (login [adminUser] emptySession (some "admin") (some "agape2025")).1 = .success :=
  (c9_login_characterization [adminUser] emptySession (some "admin")
    (some "agape2025")).1.mpr ⟨adminUser, by decide⟩

end Agape
